import Mathlib

/-!
Shallow embedding of the Scene Mode & Particle Interpolation Controller of
`src/script.js` (interactive 3D Christmas tree): the gesture-driven mode
state machine (`processGestures`), the per-particle layout generator
(`Particle.calculatePositions`) and the per-frame updater (`Particle.update`).
JavaScript numbers are idealised as real numbers; `Math.random()` draws are
passed explicitly as real parameters in `[0,1)`; mesh handles are natural
number identifiers; the external renderer quantities that `update` reads
(the camera-front focus point obtained through the inverse of
`mainGroup.matrixWorld`, the orientation produced by `mesh.lookAt(camera)`,
and `clock.elapsedTime`) are passed in as an environment record.
-/

namespace ChristmasTree

/-- Model of a 2D hand-landmark point (MediaPipe normalised coordinates);
the code only reads the `x` and `y` components. -/
structure Pt2 where
  x : ℝ
  y : ℝ

/-- Model of `THREE.Vector3`. -/
structure Vec3 where
  x : ℝ
  y : ℝ
  z : ℝ

/-- Model of JavaScript `Math.hypot(dx, dy)`. -/
noncomputable def hypot (dx dy : ℝ) : ℝ := Real.sqrt (dx ^ 2 + dy ^ 2)

/-- Model of `CONFIG.particles.treeHeight = 24`. -/
def treeHeight : ℝ := 24

/-- Model of `CONFIG.particles.treeRadius = 8`. -/
def treeRadius : ℝ := 8

/-- Model of the mode string of `STATE.mode`. -/
inductive Mode
  | TREE
  | SCATTER
  | FOCUS
deriving DecidableEq

/-- Model of the particle type strings used in `script.js`. -/
inductive ParticleType
  | BOX
  | GOLD_BOX
  | GOLD_SPHERE
  | RED
  | CANE
  | DUST
  | PHOTO
deriving DecidableEq

/-- Model of one detected hand: the 21 landmark points of the MediaPipe
hand topology. -/
def Landmarks := Fin 21 → Pt2

/-- Model of `STATE.hand`. -/
structure HandState where
  detected : Bool
  x : ℝ
  y : ℝ

/-- Model of the gesture-relevant mutable fields of `STATE` (`mode`,
`focusTarget`, `hand`); `focusTarget` holds the mesh handle of the focused
particle when present.  (`STATE.focusIndex` is initialised and never read or
written again; `STATE.rotation` belongs to the render loop, not the mode
machine.) -/
structure GState where
  mode : Mode
  focusTarget : Option Nat
  hand : HandState

/-- Model of a `Particle` instance: the mesh handle id, the constructor
fields (`type`, `isDust`, `posTree`, `posScatter`, `baseScale`, `spinSpeed`)
and the mutable mesh transform (`mesh.position`, `mesh.rotation`,
`mesh.scale`) the per-frame updater writes. -/
structure Particle where
  meshId : Nat
  type : ParticleType
  isDust : Bool
  posTree : Vec3
  posScatter : Vec3
  baseScale : ℝ
  spinSpeed : Vec3
  position : Vec3
  rotation : Vec3
  scale : Vec3

/-- Model of `particleSystem.filter(p => p.type === 'PHOTO')`. -/
def photosOf (ps : List Particle) : List Particle :=
  ps.filter (fun p => decide (p.type = ParticleType.PHOTO))

/-- Model of `Math.floor(Math.random() * photos.length)` for a concrete
draw `u` of `Math.random()`. -/
noncomputable def randIndex (u : ℝ) (n : ℕ) : ℕ := (⌊u * (n : ℝ)⌋).toNat

/-- Model of the input of one `processGestures` call: the `result.landmarks`
list (one entry per detected hand) together with the `Math.random()` draw
used if a focus target is selected. -/
structure DetectInput where
  landmarks : List Landmarks
  draw : ℝ

/-- Model of the pinch distance `Math.hypot(lm[4].x - lm[8].x, lm[4].y - lm[8].y)`. -/
noncomputable def pinchDist (lm : Landmarks) : ℝ :=
  hypot ((lm 4).x - (lm 8).x) ((lm 4).y - (lm 8).y)

/-- Model of `Math.hypot(lm[i].x - wrist.x, lm[i].y - wrist.y)` with the
wrist at landmark 0. -/
noncomputable def tipDist (lm : Landmarks) (i : Fin 21) : ℝ :=
  hypot ((lm i).x - (lm 0).x) ((lm i).y - (lm 0).y)

/-- Model of the average fingertip-to-wrist distance
`[8,12,16,20].reduce((sum,i) => sum + Math.hypot(...), 0) / 4`. -/
noncomputable def avgDist (lm : Landmarks) : ℝ :=
  (tipDist lm 8 + tipDist lm 12 + tipDist lm 16 + tipDist lm 20) / 4

/-- Model of `processGestures(result)` acting on the state, given the current
particle list.  When the pinch branch fires with a nonempty photo list the
JavaScript indexes `photos[Math.floor(Math.random()*photos.length)]`, which
always succeeds because `Math.random() < 1`; the out-of-range lookup case of
the model (unreachable for draws in `[0,1)`) leaves the focus target
untouched, exactly like the JavaScript `if (photos.length)` guard does when
the photo list is empty. -/
noncomputable def processGestures (particles : List Particle) (input : DetectInput)
    (s : GState) : GState :=
  match input.landmarks with
  | [] => { s with hand := { s.hand with detected := false } }
  | lm :: _ =>
    let s1 : GState :=
      { s with hand := { detected := true,
                         x := ((lm 9).x - 0.5) * 2,
                         y := ((lm 9).y - 0.5) * 2 } }
    if pinchDist lm < 0.05 then
      if s1.mode ≠ Mode.FOCUS then
        let photos := photosOf particles
        match photos.get? (randIndex input.draw photos.length) with
        | some p => { s1 with mode := Mode.FOCUS, focusTarget := some p.meshId }
        | none => { s1 with mode := Mode.FOCUS }
      else s1
    else if avgDist lm < 0.25 then { s1 with mode := Mode.TREE, focusTarget := none }
    else if avgDist lm > 0.4 then { s1 with mode := Mode.SCATTER, focusTarget := none }
    else s1

/-- The initial `STATE`: mode `'TREE'`, no focus target, no hand detected. -/
def initState : GState :=
  { mode := Mode.TREE, focusTarget := none, hand := { detected := false, x := 0, y := 0 } }

/-- Run a sequence of `processGestures` calls from the initial state; each
call carries the particle list current at that time (photos may be uploaded
between detection frames) and its detection input. -/
noncomputable def runGestures (steps : List (List Particle × DetectInput)) : GState :=
  steps.foldl (fun s st => processGestures st.1 st.2 s) initState

/-- The focus-target invariant of `STATE`: the focus target is non-null only
while the mode is FOCUS. -/
def focusInv (s : GState) : Prop := s.focusTarget ≠ none → s.mode = Mode.FOCUS

/-- One draw of `Math.random()` per call site of `calculatePositions`,
in source order: `u1` for the height fraction, `u2` for the angular jitter,
`u3` for the radial jitter, `u4` for the scatter shell radius, `u5` for the
scatter yaw, `u6` for the scatter pitch. -/
structure Draws where
  u1 : ℝ
  u2 : ℝ
  u3 : ℝ
  u4 : ℝ
  u5 : ℝ
  u6 : ℝ

/-- Every `Math.random()` result lies in `[0, 1)`. -/
def Draws.Valid (d : Draws) : Prop :=
  (0 ≤ d.u1 ∧ d.u1 < 1) ∧ (0 ≤ d.u2 ∧ d.u2 < 1) ∧ (0 ≤ d.u3 ∧ d.u3 < 1) ∧
  (0 ≤ d.u4 ∧ d.u4 < 1) ∧ (0 ≤ d.u5 ∧ d.u5 < 1) ∧ (0 ≤ d.u6 ∧ d.u6 < 1)

/-- The tree-layout half of `Particle.calculatePositions`:
`t = Math.pow(u1, 0.8)`, `y = t*h - h/2`,
`rMax = Math.max(0.5, treeRadius * (1 - t))`,
`angle = t*50*π + u2*π`, `r = rMax * (0.8 + u3*0.4)`,
position `(cos(angle)*r, y, sin(angle)*r)`. -/
noncomputable def treePos (d : Draws) : Vec3 :=
  let t := d.u1 ^ (0.8 : ℝ)
  let y := t * treeHeight - treeHeight / 2
  let rMax := max 0.5 (treeRadius * (1 - t))
  let angle := t * 50 * Real.pi + d.u2 * Real.pi
  let r := rMax * (0.8 + d.u3 * 0.4)
  ⟨Real.cos angle * r, y, Real.sin angle * r⟩

/-- The scatter-layout half of `Particle.calculatePositions`:
`rScatter = isDust ? 12 + u4*20 : 8 + u4*12`, `theta = u5*π*2`,
`phi = Math.acos(2*u6 - 1)`, position
`(r sinφ cosθ, r sinφ sinθ, r cosφ)`. -/
noncomputable def scatterPos (isDust : Bool) (d : Draws) : Vec3 :=
  let rScatter := if isDust then 12 + d.u4 * 20 else 8 + d.u4 * 12
  let theta := d.u5 * Real.pi * 2
  let phi := Real.arccos (2 * d.u6 - 1)
  ⟨rScatter * Real.sin phi * Real.cos theta,
   rScatter * Real.sin phi * Real.sin theta,
   rScatter * Real.cos phi⟩

/-- Horizontal distance of a point from the vertical trunk axis (the y-axis). -/
noncomputable def horizRadius (v : Vec3) : ℝ := Real.sqrt (v.x ^ 2 + v.z ^ 2)

/-- Euclidean distance of a point from the origin. -/
noncomputable def distOrigin (v : Vec3) : ℝ := Real.sqrt (v.x ^ 2 + v.y ^ 2 + v.z ^ 2)

/-- Model of the `Particle` constructor: stores the mesh transform, reads
`baseScale` from `mesh.scale.x`, draws the spin velocity componentwise as
`(rand - 0.5) * speedMult` with `speedMult = 0.3` for photos and `2.0`
otherwise (spin draws `s1 s2 s3`), and computes both layout targets once via
`calculatePositions` (draws `d`). -/
noncomputable def Particle.create (meshId : Nat) (type : ParticleType) (isDust : Bool)
    (meshPos meshRot meshScale : Vec3) (s1 s2 s3 : ℝ) (d : Draws) : Particle :=
  let speedMult : ℝ := if type = ParticleType.PHOTO then 0.3 else 2
  { meshId := meshId
    type := type
    isDust := isDust
    posTree := treePos d
    posScatter := scatterPos isDust d
    baseScale := meshScale.x
    spinSpeed := ⟨(s1 - 0.5) * speedMult, (s2 - 0.5) * speedMult, (s3 - 0.5) * speedMult⟩
    position := meshPos
    rotation := meshRot
    scale := meshScale }

/-- Model of `THREE.MathUtils.lerp(a, b, t) = a + (b - a) * t`; `THREE.Vector3.lerp`
applies the same formula componentwise in place. -/
def lerp (a b t : ℝ) : ℝ := a + (b - a) * t

/-- Componentwise linear interpolation, as `THREE.Vector3.lerp(v, alpha)` does. -/
def Vec3.lerpTo (v w : Vec3) (t : ℝ) : Vec3 := ⟨lerp v.x w.x t, lerp v.y w.y t, lerp v.z w.z t⟩

/-- Renderer-owned quantities read by `Particle.update`: the camera-front
focus point `(0,2,35)` mapped through the inverse of `mainGroup.matrixWorld`,
the orientation `mesh.lookAt(camera.position)` would install, and
`clock.elapsedTime`. -/
structure UpdateEnv where
  focusPoint : Vec3
  lookAtRot : Vec3
  elapsed : ℝ

/-- The interpolation target `Particle.update` computes from the mode and
focus target: `SCATTER` → `posScatter`, otherwise `posTree`, overridden in
`FOCUS` mode by the camera-front point for the focused particle and
`posScatter` for every other particle. -/
def Particle.interpTarget (p : Particle) (mode : Mode) (ft : Option Nat)
    (env : UpdateEnv) : Vec3 :=
  let base := if mode = Mode.SCATTER then p.posScatter else p.posTree
  if mode = Mode.FOCUS then
    if ft = some p.meshId then env.focusPoint else p.posScatter
  else base

/-- Model of `Particle.update(dt, mode, focusTargetMesh)`: move the mesh
position toward the interpolation target at speed 5.0 for the focused
particle in FOCUS mode and 2.0 otherwise; spin in SCATTER, damp tilt and
yaw slowly in TREE, face the camera when focused; animate scale toward the
mode/type-dependent target size at rate 4.0. -/
noncomputable def Particle.update (p : Particle) (dt : ℝ) (mode : Mode) (ft : Option Nat)
    (env : UpdateEnv) : Particle :=
  let target := p.interpTarget mode ft env
  let lerpSpeed : ℝ := if mode = Mode.FOCUS ∧ ft = some p.meshId then 5 else 2
  let pos := p.position.lerpTo target (lerpSpeed * dt)
  let rot :=
    if mode = Mode.SCATTER then
      Vec3.mk (p.rotation.x + p.spinSpeed.x * dt) (p.rotation.y + p.spinSpeed.y * dt)
        (p.rotation.z + p.spinSpeed.z * dt)
    else if mode = Mode.TREE then
      Vec3.mk (lerp p.rotation.x 0 dt) (p.rotation.y + 0.5 * dt) (lerp p.rotation.z 0 dt)
    else p.rotation
  let rot2 := if mode = Mode.FOCUS ∧ ft = some p.meshId then env.lookAtRot else rot
  let s :=
    if p.isDust then
      if mode = Mode.TREE then 0
      else p.baseScale * (0.8 + 0.4 * Real.sin (env.elapsed * 4 + (p.meshId : ℝ)))
    else if mode = Mode.SCATTER ∧ p.type = ParticleType.PHOTO then p.baseScale * 2.5
    else if mode = Mode.FOCUS then
      if ft = some p.meshId then 4.5 else p.baseScale * 0.8
    else p.baseScale
  { p with position := pos, rotation := rot2, scale := p.scale.lerpTo ⟨s, s, s⟩ (4 * dt) }

/-- Iterate the per-frame update `n` times with the same elapsed time, mode,
focus target and environment. -/
noncomputable def updateIter (dt : ℝ) (mode : Mode) (ft : Option Nat) (env : UpdateEnv) :
    Nat → Particle → Particle
  | 0, p => p
  | n + 1, p => updateIter dt mode ft env n (p.update dt mode ft env)

/-- Parameters of one `Particle.update` call, for iterating heterogeneous
frame sequences. -/
structure UpdateStep where
  dt : ℝ
  mode : Mode
  ft : Option Nat
  env : UpdateEnv

/-- Apply a whole sequence of per-frame updates to a particle. -/
noncomputable def runUpdates (steps : List UpdateStep) (p : Particle) : Particle :=
  steps.foldl (fun q st => q.update st.dt st.mode st.ft st.env) p

/-- Concrete hand fixture: wrist (0), middle-finger base (9) and thumb tip (4)
at the origin, every other landmark at `(a, 0)`.  For `0 ≤ a` its average
fingertip-to-wrist distance and its pinch distance are both `a`. -/
noncomputable def lmSpread (a : ℝ) : Landmarks :=
  fun i => if i.val = 0 ∨ i.val = 9 ∨ i.val = 4 then ⟨0, 0⟩ else ⟨a, 0⟩

/-- Concrete hand fixture: wrist (0) and middle-finger base (9) at the
origin, every other landmark at `(a, 0)`.  The thumb tip coincides with the
index tip, so the pinch distance is `0`, while for `0 ≤ a` the average
fingertip-to-wrist distance is `a`. -/
noncomputable def lmPinchAt (a : ℝ) : Landmarks :=
  fun i => if i.val = 0 ∨ i.val = 9 then ⟨0, 0⟩ else ⟨a, 0⟩

/-- Concrete photo-particle fixture. -/
noncomputable def photoParticle : Particle :=
  { meshId := 7
    type := ParticleType.PHOTO
    isDust := false
    posTree := ⟨1, 2, 3⟩
    posScatter := ⟨4, 5, 6⟩
    baseScale := 1
    spinSpeed := ⟨0, 0, 0⟩
    position := ⟨0, 0, 0⟩
    rotation := ⟨0, 0, 0⟩
    scale := ⟨1, 1, 1⟩ }

/-- Concrete non-photo particle fixture sitting exactly on its tree target. -/
noncomputable def boxParticleAtTree : Particle :=
  { meshId := 3
    type := ParticleType.BOX
    isDust := false
    posTree := ⟨1, 2, 3⟩
    posScatter := ⟨4, 5, 6⟩
    baseScale := 1
    spinSpeed := ⟨0.25, 0.5, 0.75⟩
    position := ⟨1, 2, 3⟩
    rotation := ⟨0, 0, 0⟩
    scale := ⟨1, 1, 1⟩ }

/-- Concrete renderer environment fixture. -/
noncomputable def envFix : UpdateEnv :=
  { focusPoint := ⟨0, 2, 35⟩, lookAtRot := ⟨0, 0, 0⟩, elapsed := 0 }

/-- Concrete draw fixture with every `Math.random()` result equal to zero. -/
noncomputable def drawsZero : Draws := ⟨0, 0, 0, 0, 0, 0⟩

/-- Concrete draw fixture exhibiting a tree-layout radius above `treeRadius`:
the height draw `0` puts the point at the base of the cone (`rMax = 8`) and
the radial jitter draw `0.95` stretches it to `8 * 1.18 = 9.44`. -/
noncomputable def drawsWide : Draws := ⟨0, 0, 0.95, 0, 0, 0⟩

/-- Concrete hand fixture realising the spec example of a pinch distance of
exactly `0.02`: thumb tip at `(0.48, 0)`, fingertips at `(0.5, 0)`. -/
noncomputable def lmPinch002 : Landmarks :=
  fun i => if i.val = 0 ∨ i.val = 9 then ⟨0, 0⟩
           else if i.val = 4 then ⟨0.48, 0⟩ else ⟨0.5, 0⟩

/-- Evaluation of `Math.hypot` when the sum of squares is a known perfect
square. -/
theorem hypot_eq (x y a : ℝ) (ha : 0 ≤ a) (h : x ^ 2 + y ^ 2 = a ^ 2) :
    hypot x y = a := by
  unfold hypot
  rw [h, Real.sqrt_sq ha]

/-- The `lmSpread` fixture has pinch distance `a`. -/
theorem lmSpread_pinch (a : ℝ) (ha : 0 ≤ a) : pinchDist (lmSpread a) = a := by
  show hypot (0 - a) (0 - 0) = a
  exact hypot_eq _ _ _ ha (by ring)

/-- The `lmSpread` fixture has average fingertip-to-wrist distance `a`. -/
theorem lmSpread_avg (a : ℝ) (ha : 0 ≤ a) : avgDist (lmSpread a) = a := by
  have h : hypot (a - 0) (0 - 0) = a := hypot_eq _ _ _ ha (by ring)
  show (hypot (a - 0) (0 - 0) + hypot (a - 0) (0 - 0) + hypot (a - 0) (0 - 0) +
      hypot (a - 0) (0 - 0)) / 4 = a
  rw [h]
  ring

/-- The `lmPinchAt` fixture has pinch distance `0`. -/
theorem lmPinchAt_pinch (a : ℝ) : pinchDist (lmPinchAt a) = 0 := by
  show hypot (a - a) (0 - 0) = 0
  exact hypot_eq _ _ _ le_rfl (by ring)

/-- The `lmPinchAt` fixture has average fingertip-to-wrist distance `a`. -/
theorem lmPinchAt_avg (a : ℝ) (ha : 0 ≤ a) : avgDist (lmPinchAt a) = a := by
  have h : hypot (a - 0) (0 - 0) = a := hypot_eq _ _ _ ha (by ring)
  show (hypot (a - 0) (0 - 0) + hypot (a - 0) (0 - 0) + hypot (a - 0) (0 - 0) +
      hypot (a - 0) (0 - 0)) / 4 = a
  rw [h]
  ring

/-- The `lmPinch002` fixture has pinch distance `0.02`. -/
theorem lmPinch002_pinch : pinchDist lmPinch002 = 0.02 := by
  show hypot (0.48 - 0.5) (0 - 0) = 0.02
  exact hypot_eq _ _ _ (by norm_num) (by norm_num)

/-- The random photo index is always in range for a `Math.random()` draw. -/
theorem randIndex_lt (u : ℝ) (n : ℕ) (h0 : 0 ≤ u) (h1 : u < 1) (hn : 0 < n) :
    randIndex u n < n := by
  have hnR : (0:ℝ) < n := by exact_mod_cast hn
  have hun : u * (n : ℝ) < n := by nlinarith
  have hfl : ⌊u * (n : ℝ)⌋ < (n : ℤ) := Int.floor_lt.2 (by exact_mod_cast hun)
  have hnn : 0 ≤ ⌊u * (n : ℝ)⌋ := Int.floor_nonneg.2 (mul_nonneg h0 (le_of_lt hnR))
  unfold randIndex
  omega

/-- The draws selecting photo index `k` are exactly the interval
`[k/n, (k+1)/n)`, so every index is selected on a set of draws of the same
length `1/n`: the selection is uniform for a uniform draw. -/
theorem randIndex_eq_iff (u : ℝ) (n k : ℕ) (h0 : 0 ≤ u) (hn : 0 < n) :
    randIndex u n = k ↔ ((k : ℝ) / n ≤ u ∧ u < ((k : ℝ) + 1) / n) := by
  have hnR : (0:ℝ) < n := by exact_mod_cast hn
  have hnn : 0 ≤ ⌊u * (n : ℝ)⌋ := Int.floor_nonneg.2 (mul_nonneg h0 (le_of_lt hnR))
  have h1 : randIndex u n = k ↔ ⌊u * (n : ℝ)⌋ = (k : ℤ) := by
    unfold randIndex
    omega
  rw [h1, Int.floor_eq_iff, div_le_iff₀ hnR, lt_div_iff₀ hnR]
  push_cast
  tauto

/-- Distance collapse for a point on a circle of radius `r`. -/
theorem sqrt_circle (a r : ℝ) (hr : 0 ≤ r) :
    Real.sqrt ((Real.cos a * r) ^ 2 + (Real.sin a * r) ^ 2) = r := by
  rw [show (Real.cos a * r) ^ 2 + (Real.sin a * r) ^ 2 = r ^ 2 from by
        linear_combination r ^ 2 * Real.sin_sq_add_cos_sq a,
      Real.sqrt_sq hr]

/-- Distance collapse for a point on a sphere of radius `r` parametrised by
yaw `θ` and pitch `φ`. -/
theorem sqrt_sphere (r θ φ : ℝ) (hr : 0 ≤ r) :
    Real.sqrt ((r * Real.sin φ * Real.cos θ) ^ 2 + (r * Real.sin φ * Real.sin θ) ^ 2 +
      (r * Real.cos φ) ^ 2) = r := by
  rw [show (r * Real.sin φ * Real.cos θ) ^ 2 + (r * Real.sin φ * Real.sin θ) ^ 2 +
        (r * Real.cos φ) ^ 2 = r ^ 2 from by
        linear_combination (r ^ 2 * Real.sin φ ^ 2) * Real.sin_sq_add_cos_sq θ +
          r ^ 2 * Real.sin_sq_add_cos_sq φ,
      Real.sqrt_sq hr]

/-- The horizontal radius of a generated tree-layout point is exactly the
`r` the code computes: `max(0.5, treeRadius*(1-t)) * (0.8 + u3*0.4)`. -/
theorem horizRadius_treePos (d : Draws) (h3 : 0 ≤ d.u3) :
    horizRadius (treePos d) =
      max 0.5 (treeRadius * (1 - d.u1 ^ (0.8:ℝ))) * (0.8 + d.u3 * 0.4) := by
  have hr : (0:ℝ) ≤ max 0.5 (treeRadius * (1 - d.u1 ^ (0.8:ℝ))) * (0.8 + d.u3 * 0.4) :=
    mul_nonneg (le_trans (by norm_num) (le_max_left _ _)) (by linarith)
  exact sqrt_circle _ _ hr

/-- The distance from the origin of a dust scatter point is exactly its
shell radius `12 + u4*20`. -/
theorem distOrigin_scatterPos_true (d : Draws) (h4 : 0 ≤ d.u4) :
    distOrigin (scatterPos true d) = 12 + d.u4 * 20 :=
  sqrt_sphere (12 + d.u4 * 20) (d.u5 * Real.pi * 2) (Real.arccos (2 * d.u6 - 1)) (by linarith)

/-- The distance from the origin of a non-dust scatter point is exactly its
shell radius `8 + u4*12`. -/
theorem distOrigin_scatterPos_false (d : Draws) (h4 : 0 ≤ d.u4) :
    distOrigin (scatterPos false d) = 8 + d.u4 * 12 :=
  sqrt_sphere (8 + d.u4 * 12) (d.u5 * Real.pi * 2) (Real.arccos (2 * d.u6 - 1)) (by linarith)

/-- One per-frame update does not touch the constructor-owned fields. -/
theorem update_frame (p : Particle) (dt : ℝ) (mode : Mode) (ft : Option Nat)
    (env : UpdateEnv) :
    (p.update dt mode ft env).posTree = p.posTree ∧
    (p.update dt mode ft env).posScatter = p.posScatter ∧
    (p.update dt mode ft env).type = p.type ∧
    (p.update dt mode ft env).isDust = p.isDust ∧
    (p.update dt mode ft env).baseScale = p.baseScale ∧
    (p.update dt mode ft env).spinSpeed = p.spinSpeed ∧
    (p.update dt mode ft env).meshId = p.meshId :=
  ⟨rfl, rfl, rfl, rfl, rfl, rfl, rfl⟩

/-- A whole sequence of per-frame updates does not touch the
constructor-owned fields. -/
theorem runUpdates_frame (steps : List UpdateStep) (p : Particle) :
    (runUpdates steps p).posTree = p.posTree ∧
    (runUpdates steps p).posScatter = p.posScatter ∧
    (runUpdates steps p).type = p.type ∧
    (runUpdates steps p).isDust = p.isDust ∧
    (runUpdates steps p).baseScale = p.baseScale ∧
    (runUpdates steps p).spinSpeed = p.spinSpeed := by
  induction steps generalizing p with
  | nil => exact ⟨rfl, rfl, rfl, rfl, rfl, rfl⟩
  | cons st rest ih =>
    have h := ih (p.update st.dt st.mode st.ft st.env)
    have hf := update_frame p st.dt st.mode st.ft st.env
    have hrw : runUpdates (st :: rest) p =
        runUpdates rest (p.update st.dt st.mode st.ft st.env) := rfl
    rw [hrw]
    exact ⟨h.1.trans hf.1, h.2.1.trans hf.2.1, h.2.2.1.trans hf.2.2.1,
      h.2.2.2.1.trans hf.2.2.2.1, h.2.2.2.2.1.trans hf.2.2.2.2.1,
      h.2.2.2.2.2.trans hf.2.2.2.2.2.1⟩

/-- Interpolating a vector toward itself is the identity. -/
theorem lerpTo_self (v : Vec3) (t : ℝ) : v.lerpTo v t = v := by
  cases v
  simp [Vec3.lerpTo, lerp]

/-- If the position already equals the interpolation target, one update
leaves the position unchanged. -/
theorem update_position_fixed (p : Particle) (dt : ℝ) (mode : Mode) (ft : Option Nat)
    (env : UpdateEnv) (h : p.position = p.interpTarget mode ft env) :
    (p.update dt mode ft env).position = p.position := by
  show p.position.lerpTo (p.interpTarget mode ft env)
      ((if mode = Mode.FOCUS ∧ ft = some p.meshId then (5:ℝ) else 2) * dt) = p.position
  rw [← h, lerpTo_self]

/-- The interpolation target only depends on fields the update preserves. -/
theorem update_interpTarget (p : Particle) (dt : ℝ) (mode : Mode) (ft : Option Nat)
    (env : UpdateEnv) (mode2 : Mode) (ft2 : Option Nat) (env2 : UpdateEnv) :
    (p.update dt mode ft env).interpTarget mode2 ft2 env2 =
      p.interpTarget mode2 ft2 env2 := rfl

/-- Iterated updates keep a converged position unchanged. -/
theorem updateIter_position_fixed (dt : ℝ) (mode : Mode) (ft : Option Nat)
    (env : UpdateEnv) (n : Nat) :
    ∀ q : Particle, q.position = q.interpTarget mode ft env →
      (updateIter dt mode ft env n q).position = q.position := by
  induction n with
  | zero => exact fun q _ => rfl
  | succ n ih =>
    intro q h
    have h1 : (q.update dt mode ft env).position = q.position :=
      update_position_fixed q dt mode ft env h
    have h2 : (q.update dt mode ft env).position =
        (q.update dt mode ft env).interpTarget mode ft env := by
      rw [update_interpTarget, h1]
      exact h
    calc (updateIter dt mode ft env (n + 1) q).position
        = (updateIter dt mode ft env n (q.update dt mode ft env)).position := rfl
      _ = (q.update dt mode ft env).position := ih _ h2
      _ = q.position := h1

/-- Whenever the pinch fires, the resulting mode is FOCUS, whatever the
prior mode and whatever the openness measure says. -/
theorem pinch_mode_focus (particles : List Particle) (lm : Landmarks)
    (rest : List Landmarks) (u : ℝ) (s : GState) (hp : pinchDist lm < 0.05) :
    (processGestures particles ⟨lm :: rest, u⟩ s).mode = Mode.FOCUS := by
  simp only [processGestures]
  rw [if_pos hp]
  by_cases hm : s.mode = Mode.FOCUS
  · rw [if_neg (show ¬ s.mode ≠ Mode.FOCUS from fun hc => hc hm)]
    exact hm
  · rw [if_pos hm]
    rcases (photosOf particles).get? (randIndex u (photosOf particles).length)
      with _ | p
    · rfl
    · rfl

/-- One `processGestures` call preserves the focus-target invariant. -/
theorem processGestures_focusInv (particles : List Particle) (input : DetectInput)
    (s : GState) (h : focusInv s) : focusInv (processGestures particles input s) := by
  obtain ⟨lms, u⟩ := input
  rcases lms with _ | ⟨lm, rest⟩
  · exact fun hne => h hne
  · simp only [processGestures]
    by_cases hp : pinchDist lm < 0.05
    · rw [if_pos hp]
      by_cases hm : s.mode = Mode.FOCUS
      · rw [if_neg (show ¬ s.mode ≠ Mode.FOCUS from fun hc => hc hm)]
        exact fun _ => hm
      · rw [if_pos hm]
        rcases (photosOf particles).get? (randIndex u (photosOf particles).length)
          with _ | p
        · exact fun _ => rfl
        · exact fun _ => rfl
    · rw [if_neg hp]
      by_cases h25 : avgDist lm < 0.25
      · rw [if_pos h25]
        exact fun hne => absurd rfl hne
      · rw [if_neg h25]
        by_cases h4 : avgDist lm > 0.4
        · rw [if_pos h4]
          exact fun hne => absurd rfl hne
        · rw [if_neg h4]
          exact fun hne => h hne

/-- C1: for every landmark set whose pinch distance is below 0.05 and every
prior state whose mode is not FOCUS, processing gestures moves the mode to
FOCUS; when no photo particle exists the focus target is untouched, and when
at least one exists the focus target becomes the mesh of the photo at index
`⌊u·n⌋` of the photo list for the uniform draw `u` — an index whose preimage
`[k/n, (k+1)/n)` has the same length `1/n` for every `k < n`, i.e. the
selection is uniform among the photo particles. -/
theorem pinch_enters_focus (particles : List Particle) (lm : Landmarks)
    (rest : List Landmarks) (u : ℝ) (s : GState)
    (hp : pinchDist lm < 0.05) (hu0 : 0 ≤ u) (hu1 : u < 1)
    (hm : s.mode ≠ Mode.FOCUS) :
    (processGestures particles ⟨lm :: rest, u⟩ s).mode = Mode.FOCUS ∧
    (photosOf particles = [] →
      (processGestures particles ⟨lm :: rest, u⟩ s).focusTarget = s.focusTarget) ∧
    (photosOf particles ≠ [] →
      ∃ p, (photosOf particles).get? (randIndex u (photosOf particles).length) = some p ∧
        (processGestures particles ⟨lm :: rest, u⟩ s).focusTarget = some p.meshId) ∧
    (∀ k : Nat, k < (photosOf particles).length →
      (randIndex u (photosOf particles).length = k ↔
        (k : ℝ) / (photosOf particles).length ≤ u ∧
          u < ((k : ℝ) + 1) / (photosOf particles).length)) := by
  simp only [processGestures]
  rw [if_pos hp, if_pos hm]
  rcases hget : (photosOf particles).get? (randIndex u (photosOf particles).length)
    with _ | p
  · have hlen : photosOf particles = [] := by
      by_contra hne
      have hpos : 0 < (photosOf particles).length := List.length_pos.2 hne
      have hlt := randIndex_lt u _ hu0 hu1 hpos
      rw [List.get?_eq_get hlt] at hget
      cases hget
    exact ⟨rfl, fun _ => rfl, fun hne => absurd hlen hne,
      fun k hk => randIndex_eq_iff u _ k hu0 (Nat.lt_of_le_of_lt (Nat.zero_le k) hk)⟩
  · refine ⟨rfl, fun hemp => ?_, fun _ => ⟨p, rfl, rfl⟩,
      fun k hk => randIndex_eq_iff u _ k hu0 (Nat.lt_of_le_of_lt (Nat.zero_le k) hk)⟩
    rw [hemp] at hget
    cases hget

/-- C1 witness: with one photo particle, the spec's example hand with pinch
distance 0.02, the draw 0 and the initial (TREE) state, the mode becomes
FOCUS and the focus target becomes the photo's mesh. -/
theorem pinch_enters_focus_witness :
    (processGestures [photoParticle] ⟨[lmPinch002], 0⟩ initState).mode = Mode.FOCUS ∧
    ∃ p, (photosOf [photoParticle]).get?
        (randIndex 0 (photosOf [photoParticle]).length) = some p ∧
      (processGestures [photoParticle] ⟨[lmPinch002], 0⟩ initState).focusTarget =
        some p.meshId :=
  have h := pinch_enters_focus [photoParticle] lmPinch002 [] 0 initState
    (by rw [lmPinch002_pinch]; norm_num) le_rfl (by norm_num)
    (by simp [initState])
  ⟨h.1, h.2.2.1 (by simp [photosOf, photoParticle])⟩

/-- C2 counterexample: the claim that every tree-layout radius is bounded by
`treeRadius = 8` fails — the valid draw `drawsWide` (height draw 0, radial
jitter draw 0.95) produces a horizontal radius of `9.44 > 8`. -/
theorem tree_radius_counterexample :
    drawsWide.Valid ∧ treeRadius < horizRadius (treePos drawsWide) := by
  constructor
  · norm_num [Draws.Valid, drawsWide]
  · have hz : drawsWide.u1 ^ (0.8:ℝ) = 0 := by
      show (0:ℝ) ^ (0.8:ℝ) = 0
      exact Real.zero_rpow (by norm_num)
    rw [horizRadius_treePos drawsWide (by norm_num [drawsWide]), hz]
    rw [show treeRadius * (1 - (0:ℝ)) = 8 from by norm_num [treeRadius]]
    rw [show max (0.5:ℝ) 8 = 8 from max_eq_right (by norm_num)]
    show treeRadius < 8 * (0.8 + drawsWide.u3 * 0.4)
    norm_num [treeRadius, drawsWide]

/-- C2 (amended): for every valid draw the horizontal radius of the
generated tree-layout point is non-negative and strictly below
`1.2 * treeRadius = 9.6` (the radial jitter factor `0.8 + u·0.4` can exceed
1, so the claimed bound `treeRadius` itself does not hold). -/
theorem tree_radius_bounds (d : Draws) (hv : d.Valid) :
    0 ≤ horizRadius (treePos d) ∧ horizRadius (treePos d) < 1.2 * treeRadius := by
  obtain ⟨⟨h10, h11⟩, _, ⟨h30, h31⟩, _⟩ := hv
  refine ⟨Real.sqrt_nonneg _, ?_⟩
  rw [horizRadius_treePos d h30]
  have ht0 : (0:ℝ) ≤ d.u1 ^ (0.8:ℝ) := Real.rpow_nonneg h10 _
  have ht1 : d.u1 ^ (0.8:ℝ) ≤ 1 := Real.rpow_le_one h10 (le_of_lt h11) (by norm_num)
  have hm : max 0.5 (treeRadius * (1 - d.u1 ^ (0.8:ℝ))) ≤ treeRadius := by
    apply max_le
    · norm_num [treeRadius]
    · exact mul_le_of_le_one_right (by norm_num [treeRadius]) (by linarith)
  have hf : 0.8 + d.u3 * 0.4 < 1.2 := by linarith
  have hf0 : (0:ℝ) ≤ 0.8 + d.u3 * 0.4 := by linarith
  calc max 0.5 (treeRadius * (1 - d.u1 ^ (0.8:ℝ))) * (0.8 + d.u3 * 0.4)
      ≤ treeRadius * (0.8 + d.u3 * 0.4) := mul_le_mul_of_nonneg_right hm hf0
    _ < treeRadius * 1.2 := mul_lt_mul_of_pos_left hf (by norm_num [treeRadius])
    _ = 1.2 * treeRadius := mul_comm _ _

/-- C2 witness: the all-zero draw is valid and its tree-layout radius obeys
the amended bounds. -/
theorem tree_radius_bounds_witness :
    0 ≤ horizRadius (treePos drawsZero) ∧
    horizRadius (treePos drawsZero) < 1.2 * treeRadius :=
  tree_radius_bounds drawsZero (by norm_num [Draws.Valid, drawsZero])

/-- C3: for every valid draw, the Euclidean distance of the scatter-layout
point from the origin lies in `[12, 32]` for a dust particle and in
`[8, 20]` otherwise. -/
theorem scatter_shell_bounds (isDust : Bool) (d : Draws) (hv : d.Valid) :
    (isDust = true →
      12 ≤ distOrigin (scatterPos isDust d) ∧ distOrigin (scatterPos isDust d) ≤ 32) ∧
    (isDust = false →
      8 ≤ distOrigin (scatterPos isDust d) ∧ distOrigin (scatterPos isDust d) ≤ 20) := by
  obtain ⟨_, _, _, ⟨h40, h41⟩, _, _⟩ := hv
  cases isDust
  · refine ⟨fun h => by simp at h, fun _ => ?_⟩
    rw [distOrigin_scatterPos_false d h40]
    constructor <;> linarith
  · refine ⟨fun _ => ?_, fun h => by simp at h⟩
    rw [distOrigin_scatterPos_true d h40]
    constructor <;> linarith

/-- C3 witness: the all-zero draw is valid and the dust scatter point it
generates is at distance within `[12, 32]` from the origin. -/
theorem scatter_shell_bounds_witness :
    12 ≤ distOrigin (scatterPos true drawsZero) ∧
    distOrigin (scatterPos true drawsZero) ≤ 32 :=
  (scatter_shell_bounds true drawsZero (by norm_num [Draws.Valid, drawsZero])).1 rfl

/-- C4 counterexample: the claim fails as stated — a hand whose average
fingertip-to-wrist distance is 0.5 but which is simultaneously pinching
(the `lmPinchAt 0.5` fixture: pinch distance 0, average 0.5) sends the mode
to FOCUS, not SCATTER, because the pinch branch is checked first. -/
theorem open_hand_scatter_counterexample :
    avgDist (lmPinchAt 0.5) = 0.5 ∧ pinchDist (lmPinchAt 0.5) < 0.05 ∧
    (processGestures [] ⟨[lmPinchAt 0.5], 0⟩ initState).mode = Mode.FOCUS ∧
    (processGestures [] ⟨[lmPinchAt 0.5], 0⟩ initState).mode ≠ Mode.SCATTER := by
  have hmode := pinch_mode_focus [] (lmPinchAt 0.5) [] 0 initState
    (by rw [lmPinchAt_pinch]; norm_num)
  refine ⟨lmPinchAt_avg 0.5 (by norm_num), by rw [lmPinchAt_pinch]; norm_num, hmode, ?_⟩
  rw [hmode]
  simp

/-- C4 (amended): for every detected landmark set that is not pinching
(pinch distance at least 0.05) and whose average fingertip-to-wrist distance
is 0.5, processing gestures sets the mode to SCATTER and clears the focus
target. -/
theorem open_hand_scatter (particles : List Particle) (lm : Landmarks)
    (rest : List Landmarks) (u : ℝ) (s : GState)
    (hp : 0.05 ≤ pinchDist lm) (ha : avgDist lm = 0.5) :
    (processGestures particles ⟨lm :: rest, u⟩ s).mode = Mode.SCATTER ∧
    (processGestures particles ⟨lm :: rest, u⟩ s).focusTarget = none := by
  simp only [processGestures]
  rw [if_neg (not_lt.2 hp), if_neg (by rw [ha]; norm_num), if_pos (by rw [ha]; norm_num)]
  exact ⟨rfl, rfl⟩

/-- C4 witness: the open-hand fixture `lmSpread 0.5` (pinch distance 0.5,
average distance 0.5) drives any state to SCATTER with a null focus target. -/
theorem open_hand_scatter_witness :
    (processGestures [] ⟨[lmSpread 0.5], 0⟩ initState).mode = Mode.SCATTER ∧
    (processGestures [] ⟨[lmSpread 0.5], 0⟩ initState).focusTarget = none :=
  open_hand_scatter [] (lmSpread 0.5) [] 0 initState
    (by rw [lmSpread_pinch 0.5 (by norm_num)]; norm_num)
    (lmSpread_avg 0.5 (by norm_num))

/-- C5 counterexample: the claim fails as stated — a hand whose average
fingertip-to-wrist distance is 0.1 but which is simultaneously pinching
(the `lmPinchAt 0.1` fixture: pinch distance 0, average 0.1) sends the mode
to FOCUS, not TREE, because the pinch branch is checked first. -/
theorem closed_hand_tree_counterexample :
    avgDist (lmPinchAt 0.1) = 0.1 ∧ pinchDist (lmPinchAt 0.1) < 0.05 ∧
    (processGestures [] ⟨[lmPinchAt 0.1], 0⟩ initState).mode = Mode.FOCUS ∧
    (processGestures [] ⟨[lmPinchAt 0.1], 0⟩ initState).mode ≠ Mode.TREE := by
  have hmode := pinch_mode_focus [] (lmPinchAt 0.1) [] 0 initState
    (by rw [lmPinchAt_pinch]; norm_num)
  refine ⟨lmPinchAt_avg 0.1 (by norm_num), by rw [lmPinchAt_pinch]; norm_num, hmode, ?_⟩
  rw [hmode]
  simp

/-- C5 (amended): for every detected landmark set that is not pinching
(pinch distance at least 0.05) and whose average fingertip-to-wrist distance
is 0.1, processing gestures sets the mode to TREE and clears the focus
target. -/
theorem closed_hand_tree (particles : List Particle) (lm : Landmarks)
    (rest : List Landmarks) (u : ℝ) (s : GState)
    (hp : 0.05 ≤ pinchDist lm) (ha : avgDist lm = 0.1) :
    (processGestures particles ⟨lm :: rest, u⟩ s).mode = Mode.TREE ∧
    (processGestures particles ⟨lm :: rest, u⟩ s).focusTarget = none := by
  simp only [processGestures]
  rw [if_neg (not_lt.2 hp), if_pos (by rw [ha]; norm_num)]
  exact ⟨rfl, rfl⟩

/-- C5 witness: the closed-hand fixture `lmSpread 0.1` (pinch distance 0.1,
average distance 0.1) drives any state to TREE with a null focus target. -/
theorem closed_hand_tree_witness :
    (processGestures [] ⟨[lmSpread 0.1], 0⟩ initState).mode = Mode.TREE ∧
    (processGestures [] ⟨[lmSpread 0.1], 0⟩ initState).focusTarget = none :=
  closed_hand_tree [] (lmSpread 0.1) [] 0 initState
    (by rw [lmSpread_pinch 0.1 (by norm_num)]; norm_num)
    (lmSpread_avg 0.1 (by norm_num))

/-- C6: when no hand is detected, or a hand is detected with pinch distance
at least 0.05 and average fingertip-to-wrist distance strictly between 0.25
and 0.4, the mode and the focus target are left unchanged. -/
theorem ambiguous_no_transition (particles : List Particle) (input : DetectInput)
    (s : GState)
    (h : input.landmarks = [] ∨
      ∃ lm rest, input.landmarks = lm :: rest ∧ 0.05 ≤ pinchDist lm ∧
        0.25 < avgDist lm ∧ avgDist lm < 0.4) :
    (processGestures particles input s).mode = s.mode ∧
    (processGestures particles input s).focusTarget = s.focusTarget := by
  obtain ⟨lms, u⟩ := input
  dsimp only at h
  rcases h with h | ⟨lm, rest, heq, hpin, h25, h4⟩
  · subst h
    exact ⟨rfl, rfl⟩
  · subst heq
    simp only [processGestures]
    rw [if_neg (not_lt.2 hpin), if_neg (not_lt.2 (le_of_lt h25)),
      if_neg (not_lt.2 (le_of_lt h4))]
    exact ⟨rfl, rfl⟩

/-- C6 witness: an empty detection result leaves mode and focus target of
the initial state unchanged. -/
theorem ambiguous_no_transition_witness :
    (processGestures [] ⟨[], 0⟩ initState).mode = initState.mode ∧
    (processGestures [] ⟨[], 0⟩ initState).focusTarget = initState.focusTarget :=
  ambiguous_no_transition [] ⟨[], 0⟩ initState (Or.inl rfl)

/-- C7: the per-frame update is idempotent at convergence — if the position
already equals the interpolation target for the given mode and focus target,
one update leaves it unchanged and so does every number of repeated updates. -/
theorem update_idempotent_at_target (p : Particle) (dt : ℝ) (mode : Mode)
    (ft : Option Nat) (env : UpdateEnv)
    (h : p.position = p.interpTarget mode ft env) :
    (p.update dt mode ft env).position = p.position ∧
    ∀ n : Nat, (updateIter dt mode ft env n p).position = p.position :=
  ⟨update_position_fixed p dt mode ft env h,
   fun n => updateIter_position_fixed dt mode ft env n p h⟩

/-- C7 witness: a particle sitting exactly on its tree target stays there
under an update in TREE mode. -/
theorem update_idempotent_at_target_witness :
    (boxParticleAtTree.update 1 Mode.TREE none envFix).position =
      boxParticleAtTree.position :=
  (update_idempotent_at_target boxParticleAtTree 1 Mode.TREE none envFix rfl).1

/-- C8: starting from the initial state (mode TREE, focus target null),
after any sequence of gesture-processing calls the focus target is non-null
only while the mode is FOCUS. -/
theorem focus_nonnull_only_in_focus (steps : List (List Particle × DetectInput)) :
    focusInv (runGestures steps) := by
  have key : ∀ (l : List (List Particle × DetectInput)) (s : GState), focusInv s →
      focusInv (l.foldl (fun s st => processGestures st.1 st.2 s) s) := by
    intro l
    induction l with
    | nil => exact fun _ hs => hs
    | cons st rest ih =>
      intro s hs
      exact ih _ (processGestures_focusInv st.1 st.2 s hs)
  exact key steps initState (fun hne => absurd rfl hne)

/-- C9: the two layout targets are computed once at construction and no
per-frame update — single or iterated, for any mode, focus target, elapsed
time and environment — mutates them, nor the particle's type, dust flag,
base scale or spin velocity. -/
theorem targets_frame_condition (meshId : Nat) (type : ParticleType) (isDust : Bool)
    (meshPos meshRot meshScale : Vec3) (s1 s2 s3 : ℝ) (d : Draws)
    (steps : List UpdateStep) :
    (∀ (q : Particle) (dt : ℝ) (mode : Mode) (ft : Option Nat) (env : UpdateEnv),
      (q.update dt mode ft env).posTree = q.posTree ∧
      (q.update dt mode ft env).posScatter = q.posScatter ∧
      (q.update dt mode ft env).type = q.type ∧
      (q.update dt mode ft env).isDust = q.isDust ∧
      (q.update dt mode ft env).baseScale = q.baseScale ∧
      (q.update dt mode ft env).spinSpeed = q.spinSpeed) ∧
    (runUpdates steps
        (Particle.create meshId type isDust meshPos meshRot meshScale s1 s2 s3 d)).posTree =
      treePos d ∧
    (runUpdates steps
        (Particle.create meshId type isDust meshPos meshRot meshScale s1 s2 s3 d)).posScatter =
      scatterPos isDust d ∧
    (runUpdates steps
        (Particle.create meshId type isDust meshPos meshRot meshScale s1 s2 s3 d)).type =
      type ∧
    (runUpdates steps
        (Particle.create meshId type isDust meshPos meshRot meshScale s1 s2 s3 d)).isDust =
      isDust ∧
    (runUpdates steps
        (Particle.create meshId type isDust meshPos meshRot meshScale s1 s2 s3 d)).baseScale =
      meshScale.x ∧
    (runUpdates steps
        (Particle.create meshId type isDust meshPos meshRot meshScale s1 s2 s3 d)).spinSpeed =
      (Particle.create meshId type isDust meshPos meshRot meshScale s1 s2 s3 d).spinSpeed := by
  constructor
  · intro q dt mode ft env
    have h := update_frame q dt mode ft env
    exact ⟨h.1, h.2.1, h.2.2.1, h.2.2.2.1, h.2.2.2.2.1, h.2.2.2.2.2.1⟩
  · have h := runUpdates_frame steps
      (Particle.create meshId type isDust meshPos meshRot meshScale s1 s2 s3 d)
    exact ⟨h.1, h.2.1, h.2.2.1, h.2.2.2.1, h.2.2.2.2.1, h.2.2.2.2.2⟩

/-- C10: whenever the pinch distance is below 0.05, the openness thresholds
are irrelevant — the resulting mode is FOCUS (never TREE, never SCATTER),
whatever the average fingertip-to-wrist distance and the prior state. -/
theorem pinch_overrides_openness (particles : List Particle) (lm : Landmarks)
    (rest : List Landmarks) (u : ℝ) (s : GState) (hp : pinchDist lm < 0.05) :
    (processGestures particles ⟨lm :: rest, u⟩ s).mode = Mode.FOCUS ∧
    (processGestures particles ⟨lm :: rest, u⟩ s).mode ≠ Mode.TREE ∧
    (processGestures particles ⟨lm :: rest, u⟩ s).mode ≠ Mode.SCATTER := by
  have h := pinch_mode_focus particles lm rest u s hp
  refine ⟨h, ?_, ?_⟩ <;> rw [h] <;> simp

/-- C10 witness: a hand that is pinching (distance 0) while fully open
(average distance 0.5) still lands in FOCUS, not SCATTER. -/
theorem pinch_overrides_openness_witness :
    (processGestures [] ⟨[lmPinchAt 0.5], 1/2⟩ initState).mode = Mode.FOCUS ∧
    (processGestures [] ⟨[lmPinchAt 0.5], 1/2⟩ initState).mode ≠ Mode.TREE ∧
    (processGestures [] ⟨[lmPinchAt 0.5], 1/2⟩ initState).mode ≠ Mode.SCATTER :=
  pinch_overrides_openness [] (lmPinchAt 0.5) [] (1/2) initState
    (by rw [lmPinchAt_pinch]; norm_num)

end ChristmasTree
